import Mathlib

/-!
Verification of the trade-events-finder core: the response splitter, the
structured-event extractor (regex sniffing + JSON parsing with silent
fallbacks), the three prompt builders, the report file naming, the venue
lookup configuration, and the UI session state transitions.

Strings are modelled as `List Char`.  JavaScript numbers occurring as
coordinates are modelled as `Rat`; integer timestamps as `Nat`.
-/

/-- Whitespace as matched by the `\s` character class and by `trim`
(ASCII whitespace: space, tab, newline, carriage return, vertical tab,
form feed). -/
def isWsCh (c : Char) : Bool :=
  c = ' ' || c = '\t' || c = '\n' || c = '\r' || c = '\x0b' || c = '\x0c'

/-- Drop leading whitespace. -/
def dropWs (s : List Char) : List Char := s.dropWhile isWsCh

/-- Length of the maximal leading whitespace run. -/
def wsCount : List Char → Nat
  | [] => 0
  | c :: cs => if isWsCh c then wsCount cs + 1 else 0

/-- `String.prototype.trim`: strip whitespace from both ends. -/
def trimBoth (s : List Char) : List Char :=
  ((dropWs s).reverse.dropWhile isWsCh).reverse

/-- Strip whitespace from the right end only. -/
def trimRightWs (s : List Char) : List Char :=
  (s.reverse.dropWhile isWsCh).reverse

/-- Does the second list start with the first? -/
def startsWithL : List Char → List Char → Bool
  | [], _ => true
  | _ :: _, [] => false
  | p :: ps, c :: cs => p = c && startsWithL ps cs

/-- Index of the first occurrence of `p` as a contiguous sublist
(the semantics of `String.prototype.indexOf` / leftmost regex match of a
literal). -/
def firstIdxOfSub (p : List Char) : List Char → Option Nat
  | [] => if startsWithL p [] then some 0 else none
  | c :: cs =>
    if startsWithL p (c :: cs) then some 0 else (firstIdxOfSub p cs).map (· + 1)

/-- Does `p` occur as a contiguous sublist of `t`? -/
def containsSub (p t : List Char) : Bool := (firstIdxOfSub p t).isSome

/-- The fixed delimiter separating the narrative part from the structured
part of the model reply (source: `fullText.split("___JSON_START___")`). -/
def delimChars : List Char := ("___JSON_START___").data

/-- Fuel-driven worker for `splitDelim`; each step removes one leftmost
occurrence of the delimiter, as `String.prototype.split` does. -/
def splitOnAux : Nat → List Char → List (List Char)
  | 0, t => [t]
  | fuel+1, t =>
    match firstIdxOfSub delimChars t with
    | none => [t]
    | some i => t.take i :: splitOnAux fuel (t.drop (i + delimChars.length))

/-- `fullText.split("___JSON_START___")`: the pieces between the
non-overlapping leftmost occurrences of the delimiter. -/
def splitDelim (t : List Char) : List (List Char) := splitOnAux (t.length + 1) t

/-- The Response Splitter (source lines 67-69):
`displayText = parts[0].trim()` and
`jsonPart = parts.length > 1 ? parts[1].trim() : ""`. -/
def responseSplit (t : List Char) : List Char × List Char :=
  let parts := splitDelim t
  (trimBoth (parts.headD []),
   match parts with
   | _ :: p :: _ => trimBoth p
   | _ => [])

/-- Reversed tail pattern of the array regex: in a reversed suffix, a
closing bracket, then whitespace, then a closing brace
(the reverse of the regex tail). -/
def revTailOk (l : List Char) : Bool :=
  match l with
  | ']' :: rest =>
    match dropWs rest with
    | '\x7d' :: _ => true
    | _ => false
  | _ => false

/-- Index of the first suffix satisfying `p`. -/
def firstSatIdx (p : List Char → Bool) : List Char → Option Nat
  | [] => if p [] then some 0 else none
  | c :: cs => if p (c :: cs) then some 0 else (firstSatIdx p cs).map (· + 1)

/-- Greedy end of the array pattern inside `u` (the text after the opening
brace): the length of the longest prefix of `u` that ends with a closing
brace, whitespace, and a closing bracket. -/
def lastTailLen (u : List Char) : Option Nat :=
  (firstSatIdx revTailOk u.reverse).map (fun k => u.length - k)

/-- One anchored attempt of the array regex at the start of `s`: an opening
bracket, whitespace, an opening brace, any characters (greedy), a closing
brace, whitespace, a closing bracket.  Returns the matched substring. -/
def arrMatchAt (s : List Char) : Option (List Char) :=
  match s with
  | '[' :: t =>
    let w := wsCount t
    match t.drop w with
    | '\x7b' :: u =>
      match lastTailLen u with
      | some r => some ('[' :: (t.take w ++ '\x7b' :: u.take r))
      | none => none
    | _ => none
  | _ => none

/-- `jsonPart.match(/\[\s*\{[\s\S]*\}\s*\]/)` (source line 73): the
leftmost match of the array pattern, with the greedy inner wildcard. -/
def findArrayMatch : List Char → Option (List Char)
  | [] => none
  | c :: cs =>
    match arrMatchAt (c :: cs) with
    | some m => some m
    | none => findArrayMatch cs

/-- The literal opening of a fenced json code block. -/
def fenceOpen : List Char := ("```json").data

/-- The literal closing fence. -/
def fenceClose : List Char := ("```").data

/-- `fullText.match(/```json\s*([\s\S]*?)\s*```/)` (source line 83): the
captured group of the leftmost match — the text between the first
fenced-json opener and the first following closing fence, with the
surrounding whitespace absorbed by the two greedy whitespace classes. -/
def codeBlockContent (t : List Char) : Option (List Char) :=
  match firstIdxOfSub fenceOpen t with
  | none => none
  | some p =>
    let u := dropWs (t.drop (p + fenceOpen.length))
    match firstIdxOfSub fenceClose u with
    | none => none
    | some q => some (trimRightWs (u.take q))

/-- Runtime JSON values, the possible results of `JSON.parse`.  A number is
kept as its lexeme: no claim inspects numeric magnitude. -/
inductive JValue where
  | null
  | bool (b : Bool)
  | num (lex : List Char)
  | str (s : List Char)
  | arr (elems : List JValue)
  | obj (fields : List (List Char × JValue))

/-- Insignificant whitespace of the JSON grammar. -/
def isJsonWs (c : Char) : Bool := c = ' ' || c = '\t' || c = '\n' || c = '\r'

/-- Skip insignificant JSON whitespace. -/
def dropJsonWs (s : List Char) : List Char := s.dropWhile isJsonWs

/-- ASCII decimal digit. -/
def isDigitCh (c : Char) : Bool := 48 ≤ c.toNat && c.toNat ≤ 57

/-- Hexadecimal digit value, for string escapes. -/
def hexVal (c : Char) : Option Nat :=
  if 48 ≤ c.toNat && c.toNat ≤ 57 then some (c.toNat - 48)
  else if 97 ≤ c.toNat && c.toNat ≤ 102 then some (c.toNat - 87)
  else if 65 ≤ c.toNat && c.toNat ≤ 70 then some (c.toNat - 55)
  else none

/-- Prepend a character to the accumulated string of a partial parse. -/
def consMap (c : Char) (r : Option (List Char × List Char)) :
    Option (List Char × List Char) :=
  r.map (fun x => (c :: x.1, x.2))

/-- Body of a JSON string, after the opening quote: returns the decoded
characters and the input after the closing quote. -/
def parseStrRest : Nat → List Char → Option (List Char × List Char)
  | 0, _ => none
  | fuel+1, s =>
    match s with
    | [] => none
    | c :: cs =>
      if c = '"' then some ([], cs)
      else if c = '\\' then
        match cs with
        | [] => none
        | e :: cs2 =>
          if e = '"' then consMap '"' (parseStrRest fuel cs2)
          else if e = '\\' then consMap '\\' (parseStrRest fuel cs2)
          else if e = '/' then consMap '/' (parseStrRest fuel cs2)
          else if e = 'b' then consMap '\x08' (parseStrRest fuel cs2)
          else if e = 'f' then consMap '\x0c' (parseStrRest fuel cs2)
          else if e = 'n' then consMap '\n' (parseStrRest fuel cs2)
          else if e = 'r' then consMap '\r' (parseStrRest fuel cs2)
          else if e = 't' then consMap '\t' (parseStrRest fuel cs2)
          else if e = 'u' then
            match cs2 with
            | h1 :: h2 :: h3 :: h4 :: cs3 =>
              match hexVal h1, hexVal h2, hexVal h3, hexVal h4 with
              | some a, some b, some c2, some d =>
                consMap (Char.ofNat (((a * 16 + b) * 16 + c2) * 16 + d))
                  (parseStrRest fuel cs3)
              | _, _, _, _ => none
            | _ => none
          else none
      else if c.toNat < 32 then none
      else consMap c (parseStrRest fuel cs)

/-- Maximal run of decimal digits. -/
def takeDigits (s : List Char) : List Char := s.takeWhile isDigitCh

/-- Optional fraction part of a JSON number. -/
def parseFrac (s : List Char) : Option (List Char × List Char) :=
  match s with
  | '.' :: rest =>
    let ds := takeDigits rest
    if ds.isEmpty then none else some ('.' :: ds, rest.drop ds.length)
  | _ => some ([], s)

/-- Optional exponent part of a JSON number. -/
def parseExp (s : List Char) : Option (List Char × List Char) :=
  match s with
  | [] => some ([], [])
  | c :: rest =>
    if c = 'e' || c = 'E' then
      let sg : List Char × List Char :=
        match rest with
        | '+' :: r => (['+'], r)
        | '-' :: r => (['-'], r)
        | _ => ([], rest)
      let ds := takeDigits sg.2
      if ds.isEmpty then none
      else some (c :: (sg.1 ++ ds), sg.2.drop ds.length)
    else some ([], c :: rest)

/-- Fraction and exponent after the integer part, assembling the lexeme. -/
def finishNum (sign intPart : List Char) (s : List Char) :
    Option (JValue × List Char) :=
  match parseFrac s with
  | none => none
  | some (fr, s2) =>
    match parseExp s2 with
    | none => none
    | some (ex, s3) => some (JValue.num (sign ++ intPart ++ fr ++ ex), s3)

/-- A JSON number token (grammar: optional minus, `0` or a nonzero-led
digit run, optional fraction, optional exponent). -/
def parseNum (s : List Char) : Option (JValue × List Char) :=
  let signSplit : List Char × List Char :=
    match s with
    | '-' :: rest => (['-'], rest)
    | _ => ([], s)
  match signSplit.2 with
  | [] => none
  | c :: rest =>
    if c = '0' then finishNum signSplit.1 ['0'] rest
    else if isDigitCh c then
      let ds := takeDigits (c :: rest)
      finishNum signSplit.1 ds ((c :: rest).drop ds.length)
    else none

mutual

/-- One JSON value, preceded by optional whitespace (the recursive core of
`JSON.parse`). -/
def parseVal : Nat → List Char → Option (JValue × List Char)
  | 0, _ => none
  | fuel+1, s =>
    match dropJsonWs s with
    | [] => none
    | c :: cs =>
      if c = '"' then
        match parseStrRest (cs.length + 1) cs with
        | some (str, rest) => some (.str str, rest)
        | none => none
      else if c = '\x7b' then parseObjFields fuel cs
      else if c = '[' then parseArrElems fuel cs
      else if c = 't' then
        match cs with
        | 'r' :: 'u' :: 'e' :: rest => some (.bool true, rest)
        | _ => none
      else if c = 'f' then
        match cs with
        | 'a' :: 'l' :: 's' :: 'e' :: rest => some (.bool false, rest)
        | _ => none
      else if c = 'n' then
        match cs with
        | 'u' :: 'l' :: 'l' :: rest => some (.null, rest)
        | _ => none
      else if c = '-' || isDigitCh c then parseNum (c :: cs)
      else none

/-- Array body after the opening bracket: empty array, or a comma-separated
element list. -/
def parseArrElems : Nat → List Char → Option (JValue × List Char)
  | 0, _ => none
  | fuel+1, s =>
    match dropJsonWs s with
    | ']' :: rest => some (JValue.arr [], rest)
    | _ => (parseArrLoop fuel s).map (fun x => (JValue.arr x.1, x.2))

/-- One or more array elements separated by commas, up to the closing
bracket. -/
def parseArrLoop : Nat → List Char → Option (List JValue × List Char)
  | 0, _ => none
  | fuel+1, s =>
    match parseVal fuel s with
    | none => none
    | some (v, rest) =>
      match dropJsonWs rest with
      | ',' :: rest2 => (parseArrLoop fuel rest2).map (fun x => (v :: x.1, x.2))
      | ']' :: rest2 => some ([v], rest2)
      | _ => none

/-- Object body after the opening brace: empty object, or a comma-separated
member list. -/
def parseObjFields : Nat → List Char → Option (JValue × List Char)
  | 0, _ => none
  | fuel+1, s =>
    match dropJsonWs s with
    | '\x7d' :: rest => some (JValue.obj [], rest)
    | _ => (parseObjLoop fuel s).map (fun x => (JValue.obj x.1, x.2))

/-- One or more object members (string key, colon, value) separated by
commas, up to the closing brace. -/
def parseObjLoop : Nat → List Char → Option (List (List Char × JValue) × List Char)
  | 0, _ => none
  | fuel+1, s =>
    match dropJsonWs s with
    | '"' :: cs =>
      match parseStrRest (cs.length + 1) cs with
      | none => none
      | some (key, rest) =>
        match dropJsonWs rest with
        | ':' :: rest2 =>
          match parseVal fuel rest2 with
          | none => none
          | some (v, rest3) =>
            match dropJsonWs rest3 with
            | ',' :: rest4 =>
              (parseObjLoop fuel rest4).map (fun x => ((key, v) :: x.1, x.2))
            | '\x7d' :: rest4 => some ([(key, v)], rest4)
            | _ => none
        | _ => none
    | _ => none

end

/-- `JSON.parse`: one value, with only whitespace allowed after it. -/
def jsonParse (s : List Char) : Option JValue :=
  match parseVal (3 * s.length + 3) s with
  | some (v, rest) => if (dropJsonWs rest).isEmpty then some v else none
  | none => none

/-- Is the value a JSON array? -/
def isArrVal : JValue → Bool
  | .arr _ => true
  | _ => false

/-- The event extraction step of `searchTradeEvents` (source lines 72-87):
try the array regex on `jsonPart` and parse the match; on no regex match,
try the fenced json code block anywhere in `fullText` (skipping an empty
captured group, which is falsy); every parse failure is swallowed and
leaves the initial empty array. -/
def extractEvents (jsonPart fullText : List Char) : JValue :=
  match findArrayMatch jsonPart with
  | some m =>
    match jsonParse m with
    | some v => v
    | none => JValue.arr []
  | none =>
    match codeBlockContent fullText with
    | some g =>
      if g.isEmpty then JValue.arr []
      else
        match jsonParse g with
        | some v => v
        | none => JValue.arr []
    | none => JValue.arr []

/-- The whole splitting-plus-extraction pipeline on a full model reply
(source lines 67-87). -/
def searchExtract (fullText : List Char) : List Char × JValue :=
  let parts := responseSplit fullText
  (parts.1, extractEvents parts.2 fullText)

/-- First binding of a key in a JSON object. -/
def getField (fields : List (List Char × JValue)) (k : List Char) : Option JValue :=
  match fields with
  | [] => none
  | (k', v) :: rest => if k' = k then some v else getField rest k

/-- A present field holding a string. -/
def isStrField (v : Option JValue) : Bool :=
  match v with
  | some (.str _) => true
  | _ => false

/-- An absent field, or a present field holding a string. -/
def isOptStrField (v : Option JValue) : Bool :=
  match v with
  | none => true
  | some (.str _) => true
  | _ => false

/-- The `EventDetail` shape of `types.ts` (lines 18-25): `eventName`,
`date`, `location`, `type` required strings; `description`, `url`
optional strings. -/
def hasEventShape (v : JValue) : Bool :=
  match v with
  | .obj fs =>
    isStrField (getField fs (("eventName").data)) &&
    isStrField (getField fs (("date").data)) &&
    isStrField (getField fs (("location").data)) &&
    isStrField (getField fs (("type").data)) &&
    isOptStrField (getField fs (("description").data)) &&
    isOptStrField (getField fs (("url").data))
  | _ => false

/-- The global-search alternative of the location instruction
(source line 21). -/
def globalInstr : List Char := ("Search for events globally.").data

/-- The strict location filter naming the supplied location
(source line 20). -/
def criticalInstr (loc : List Char) : List Char :=
  ("CRITICAL INSTRUCTION: The user is ONLY interested in events taking place in or near \"").data
    ++ loc
    ++ ("\". FILTER OUT ALL events that are not in this location.").data

/-- `location && location.trim() !== ""` (source line 19): the location is
present, non-empty, and non-blank after trimming. -/
def isNonBlankLoc (location : Option (List Char)) : Bool :=
  match location with
  | none => false
  | some loc => !loc.isEmpty && !(trimBoth loc).isEmpty

/-- The location instruction chosen by the ternary on source lines 19-21. -/
def locationInstruction (location : Option (List Char)) : List Char :=
  match location with
  | none => globalInstr
  | some loc =>
    if loc.isEmpty then globalInstr
    else if (trimBoth loc).isEmpty then globalInstr
    else criticalInstr loc

/-- Search prompt template up to the first interpolation of the date. -/
def promptSeg1 : List Char := ("\n    Current Date: ").data

/-- Template between the date and the product. -/
def promptSeg2 : List Char := (".\n    I am an exporter dealing in: \"").data

/-- Template between the product and the second date interpolation. -/
def promptSeg3 : List Char :=
  ("\".\n    \n    1. First, identify the specific Export Promotion Council (EPC) in India relevant to this product. Start response with \"Relevant EPC: [EPC Name]\".\n    2. Then, find UPCOMING trade events, exhibitions, buyer-seller meets, and delegation meetings relevant to this product sector.\n    \n    STRICT TIME CONSTRAINT:\n    - ONLY list events happening AFTER ").data

/-- Template between the second date and the location instruction. -/
def promptSeg4 : List Char :=
  (".\n    - DO NOT list events that have already passed.\n    \n    ").data

/-- Template after the location instruction, through the two-part output
format request. -/
def promptSeg5 : List Char :=
  ("\n    \n    Please provide the output in two distinct parts separated by the delimiter \"___JSON_START___\".\n    \n    PART 1: Descriptive List\n    Provide a structured list of at least 5 relevant upcoming events.\n    For each event, include:\n    1. Event Name\n    2. Date & Location (Be specific about the city/country)\n    3. Brief Description (Focus on why it matters for this specific product)\n    4. Key link/website (if available)\n\n    DO NOT include any JSON code blocks in PART 1.\n\n    ___JSON_START___\n\n    PART 2: JSON Data\n    Strictly output a JSON array of the found events.\n    Structure: [\x7b\"eventName\": \"...\", \"date\": \"...\", \"location\": \"...\", \"type\": \"Exhibition/Delegation/etc\", \"description\": \"...\", \"url\": \"...\"\x7d]\n  ").data

/-- The search prompt of `searchTradeEvents` (source lines 23-53), as the
interpolation of product, date, and location instruction into the
template. -/
def buildSearchPrompt (product : List Char) (location : Option (List Char))
    (today : List Char) : List Char :=
  (promptSeg1 ++ today ++ promptSeg2 ++ product ++ promptSeg3 ++ today ++ promptSeg4)
    ++ (locationInstruction location ++ promptSeg5)

/-- ASCII letter or digit, the class kept by `replace(/[^a-z0-9]/gi, '_')`. -/
def isAlphaNumCh (c : Char) : Bool :=
  (97 ≤ c.toNat && c.toNat ≤ 122) ||
  (65 ≤ c.toNat && c.toNat ≤ 90) ||
  (48 ≤ c.toNat && c.toNat ≤ 57)

/-- `product.replace(/[^a-z0-9]/gi, '_').substring(0, 20)`
(source line 16 of the report generator). -/
def safeName (product : List Char) : List Char :=
  (product.map (fun c => if isAlphaNumCh c then c else '_')).take 20

/-- Decimal digit character for a residue. -/
def digitCh (n : Nat) : Char :=
  (['0', '1', '2', '3', '4', '5', '6', '7', '8', '9']).getD n '0'

/-- Decimal digits of a natural number, most significant first
(fuel-driven). -/
def natDigitsAux : Nat → Nat → List Char → List Char
  | 0, _, acc => acc
  | fuel+1, n, acc =>
    if n / 10 = 0 then digitCh (n % 10) :: acc
    else natDigitsAux fuel (n / 10) (digitCh (n % 10) :: acc)

/-- Decimal rendering of `Date.prototype.getTime`'s integer result. -/
def natToChars (n : Nat) : List Char := natDigitsAux (n + 1) n []

/-- `getFileName` (report generator lines 15-18), with the timestamp
effect made a parameter. -/
def getFileName (product : List Char) (timestamp : Nat) (ext : List Char) :
    List Char :=
  ("Kinetick_Trade_Report_").data ++ safeName product
    ++ ('_' :: natToChars timestamp) ++ ('.' :: ext)

/-- The retrieval bias of `findEventLocation` (source lines 159-168):
`if (userLat && userLng)` installs the pair in the retrieval
configuration; an absent coordinate, or a coordinate equal to `0`
(falsy), leaves the configuration without coordinates. -/
def buildLatLngBias (userLat userLng : Option Rat) : Option (Rat × Rat) :=
  match userLat, userLng with
  | some la, some ln =>
    if la = 0 then none
    else if ln = 0 then none
    else some (la, ln)
  | _, _ => none

/-- The per-call configuration of the venue lookup: the maps tool is
always on; coordinates only under the truthiness guard. -/
structure MapCallConfig where
  googleMapsTool : Bool
  latLngBias : Option (Rat × Rat)

/-- The `config` object built by `findEventLocation` (source lines
155-168). -/
def findEventLocationConfig (userLat userLng : Option Rat) : MapCallConfig :=
  { googleMapsTool := true, latLngBias := buildLatLngBias userLat userLng }

/-- A web citation source (`types.ts` lines 1-5). -/
structure WebSource where
  uri : List Char
  title : List Char

/-- A review snippet nested in a maps citation (`types.ts` lines 9-14). -/
structure ReviewSnippet where
  reviewText : List Char
  sourceUri : List Char

/-- A maps citation source (`types.ts` lines 6-15). -/
structure MapsSource where
  uri : List Char
  title : List Char
  placeAnswerSources : Option (List (List ReviewSnippet))

/-- A grounding chunk: optional web and maps parts (`types.ts` 1-16). -/
structure GroundingChunk where
  web : Option WebSource
  maps : Option MapsSource

/-- The `SearchResult` envelope (`types.ts` lines 27-31).  The
`structuredEvents` slot holds the runtime value produced by the
extractor, a parsed JSON value. -/
structure SearchResultT where
  text : List Char
  structuredEvents : JValue
  groundingChunks : List GroundingChunk

/-- The `MapResult` envelope (`types.ts` lines 33-36). -/
structure MapResultT where
  text : List Char
  groundingChunks : List GroundingChunk

/-- The `AnalysisResult` envelope (`types.ts` lines 38-40). -/
structure AnalysisResultT where
  text : List Char

/-- The request status of each slot (`types.ts` line 42). -/
inductive SearchStatus where
  | idle
  | loading
  | success
  | error
deriving DecidableEq

/-- The session state of the `App` component: the independent result
slots and their statuses, plus the input fields that gate the
handlers. -/
structure AppState where
  productQuery : List Char
  locationQuery : List Char
  searchStatus : SearchStatus
  searchResult : Option SearchResultT
  analysisStatus : SearchStatus
  analysisResult : Option AnalysisResultT
  userProfile : List Char
  mapStatus : SearchStatus
  mapResult : Option MapResultT
  selectedEventForMap : List Char
  selectedType : List Char

/-- The synchronous half of `handleSearch` before the external call
resolves (source: `setSearchStatus('loading'); setSearchResult(null);
setAnalysisResult(null); setMapResult(null); setSelectedType('All')`). -/
def handleSearchStart (s : AppState) : AppState :=
  { s with searchStatus := .loading, searchResult := none,
           analysisResult := none, mapResult := none,
           selectedType := ("All").data }

/-- Resolution of `handleSearch`'s external call: `setSearchResult(result);
setSearchStatus('success')`, or `setSearchStatus('error')` in the catch. -/
def handleSearchSettle (s : AppState) (outcome : Except Unit SearchResultT) :
    AppState :=
  match outcome with
  | .ok r => { s with searchResult := some r, searchStatus := .success }
  | .error _ => { s with searchStatus := .error }

/-- `handleSearch`: guarded on a non-empty product query, then the
synchronous clearing followed by the settlement of the call. -/
def handleSearch (s : AppState) (outcome : Except Unit SearchResultT) : AppState :=
  if s.productQuery.isEmpty then s
  else handleSearchSettle (handleSearchStart s) outcome

/-- The synchronous half of `handleAnalysis`: only
`setAnalysisStatus('loading')` — the previous analysis result is not
cleared. -/
def handleAnalysisStart (s : AppState) : AppState :=
  { s with analysisStatus := .loading }

/-- Resolution of `handleAnalysis`'s external call. -/
def handleAnalysisSettle (s : AppState) (outcome : Except Unit AnalysisResultT) :
    AppState :=
  match outcome with
  | .ok r => { s with analysisResult := some r, analysisStatus := .success }
  | .error _ => { s with analysisStatus := .error }

/-- `handleAnalysis`: guarded on an existing search result and a
non-empty user profile. -/
def handleAnalysis (s : AppState) (outcome : Except Unit AnalysisResultT) :
    AppState :=
  match s.searchResult with
  | none => s
  | some _ =>
    if s.userProfile.isEmpty then s
    else handleAnalysisSettle (handleAnalysisStart s) outcome

/-- The synchronous half of `handleMapSearch`:
`setSelectedEventForMap(eventName); setMapStatus('loading');
setMapResult(null)`. -/
def handleMapSearchStart (s : AppState) (eventName : List Char) : AppState :=
  { s with selectedEventForMap := eventName, mapStatus := .loading,
           mapResult := none }

/-- Resolution of `handleMapSearch`'s external call. -/
def handleMapSearchSettle (s : AppState) (outcome : Except Unit MapResultT) :
    AppState :=
  match outcome with
  | .ok r => { s with mapResult := some r, mapStatus := .success }
  | .error _ => { s with mapStatus := .error }

/-- `handleMapSearch`: unguarded; clears the venue slot, then settles. -/
def handleMapSearch (s : AppState) (eventName : List Char)
    (outcome : Except Unit MapResultT) : AppState :=
  handleMapSearchSettle (handleMapSearchStart s eventName) outcome

/-- A malformed array-shaped substring: it matches the array regex but is
not valid JSON. -/
def cexJsonPart : List Char := ("[\x7b,\x7d]").data

/-- A full reply whose fenced json block holds a well-formed event
array. -/
def cexFullText : List Char :=
  ("Intro text. ```json [\x7b\"eventName\": \"Expo\", \"date\": \"2026\", \"location\": \"Pune\", \"type\": \"Exhibition\"\x7d] ``` outro.").data

/-- A parsed element lacking every required event field. -/
def cexBadElem : JValue := JValue.obj [((("x").data), JValue.num (("1").data))]

/-- A well-formed event element, satisfying the `EventDetail` shape. -/
def goodEventElem : JValue :=
  JValue.obj
    [((("eventName").data), JValue.str (("Gem Fair").data)),
     ((("date").data), JValue.str (("March 2026").data)),
     ((("location").data), JValue.str (("Mumbai").data)),
     ((("type").data), JValue.str (("Exhibition").data))]

/-- A previous successful analysis, used as session-state evidence. -/
def sampleAnalysis : AnalysisResultT := { text := ("old calendar plan").data }

/-- A previous successful venue lookup. -/
def sampleMap : MapResultT :=
  { text := ("old venue details").data, groundingChunks := [] }

/-- A previous successful search. -/
def sampleSearch : SearchResultT :=
  { text := ("Relevant EPC: APEDA").data,
    structuredEvents := JValue.arr [goodEventElem], groundingChunks := [] }

/-- A session mid-flight: all three result slots populated, both gating
inputs non-empty. -/
def sampleState : AppState :=
  { productQuery := ("Frozen Shrimp").data,
    locationQuery := ("Dubai").data,
    searchStatus := .success,
    searchResult := some sampleSearch,
    analysisStatus := .success,
    analysisResult := some sampleAnalysis,
    userProfile := ("mid-sized exporter").data,
    mapStatus := .success,
    mapResult := some sampleMap,
    selectedEventForMap := ("Gem Fair").data,
    selectedType := ("All").data }

example : responseSplit (("ab").data) = (("ab").data, []) := by decide

example :
    responseSplit (("a ___JSON_START___ b ___JSON_START___ c").data)
      = (("a").data, ("b").data) := by decide

example : findArrayMatch (("x [ \x7b a \x7d ] y").data)
    = some (("[ \x7b a \x7d ]").data) := by decide

example : findArrayMatch (("[\x7b,\x7d]").data) = some (("[\x7b,\x7d]").data) := by decide

example : findArrayMatch (("[1, 2]").data) = none := by decide

example : codeBlockContent (("aa ```json  [1] ``` bb").data) = some (("[1]").data) := by
  decide

example : codeBlockContent (("```json   ```").data) = some [] := by decide

example : codeBlockContent (("```json [1] ").data) = none := by decide

example : jsonParse (("true").data) = some (JValue.bool true) := rfl

example : jsonParse ((" [ 1 , \"a\" ] ").data)
    = some (JValue.arr [JValue.num (("1").data), JValue.str (("a").data)]) := rfl

example :
    jsonParse (("[\x7b\"x\": 1\x7d]").data)
      = some (JValue.arr [JValue.obj [((("x").data), JValue.num (("1").data))]]) := rfl

example : jsonParse (("[\x7b,\x7d]").data) = none := rfl

example : jsonParse (("[\x7b\"a\": 1,\x7d]").data) = none := rfl

example : jsonParse (("[\x7b\"a\": ").data) = none := rfl

example : jsonParse (("[1,]").data) = none := rfl

example : jsonParse (("01").data) = none := rfl

example : jsonParse (("-2.5e+3").data) = some (JValue.num (("-2.5e+3").data)) := rfl

example : jsonParse (("\"a\\nb\"").data) = some (JValue.str (("a\nb").data)) := rfl

example : jsonParse (("\x7b\"k\": [true, null]\x7d").data)
    = some (JValue.obj [((("k").data), JValue.arr [JValue.bool true, JValue.null])]) := rfl

example : extractEvents (("[\x7b,\x7d]").data) (("```json [1] ```").data)
    = JValue.arr [] := rfl

example : extractEvents [] (("x ```json true ``` y").data) = JValue.bool true := rfl

example : safeName (("Tea & Spices!!").data) = ("Tea___Spices__").data := rfl

example : getFileName (("Tea & Spices!!").data) 1700000000000 (("pdf").data)
    = ("Kinetick_Trade_Report_Tea___Spices___1700000000000.pdf").data := rfl

example : buildLatLngBias (some 0) (some 10) = none := by decide

example : buildLatLngBias (some (19 / 2 : Rat)) (some 73) = some (19 / 2, 73) := by
  norm_num [buildLatLngBias]

theorem startsWithL_append (p b : List Char) : startsWithL p (p ++ b) = true := by
  induction p with
  | nil => rfl
  | cons c cs ih => simp [startsWithL, ih]

theorem firstIdxOfSub_of_startsWith (p t : List Char)
    (h : startsWithL p t = true) : firstIdxOfSub p t = some 0 := by
  cases t <;> simp [firstIdxOfSub, h]

theorem containsSub_append (p a b : List Char) :
    containsSub p (a ++ (p ++ b)) = true := by
  induction a with
  | nil =>
    simp only [List.nil_append, containsSub]
    rw [firstIdxOfSub_of_startsWith p _ (startsWithL_append p b)]
    rfl
  | cons c a ih =>
    simp only [List.cons_append, containsSub, firstIdxOfSub]
    split
    · rfl
    · simpa [containsSub] using ih

theorem splitOnAux_cons (f : Nat) (t : List Char) (i : Nat)
    (h : firstIdxOfSub delimChars t = some i) :
    splitOnAux (f + 1) t
      = t.take i :: splitOnAux f (t.drop (i + delimChars.length)) := by
  rw [splitOnAux, h]

/-- Claim C9: for every input text not containing the delimiter, the
Response Splitter returns an empty structured part and a narrative part
equal to the whole input trimmed, without failing. -/
theorem responseSplit_no_delim (t : List Char)
    (h : containsSub delimChars t = false) :
    responseSplit t = (trimBoth t, []) := by
  have h' : firstIdxOfSub delimChars t = none := by
    unfold containsSub at h
    cases hx : firstIdxOfSub delimChars t
    · rfl
    · rw [hx] at h; simp at h
  unfold responseSplit splitDelim
  rw [splitOnAux, h']
  rfl

theorem responseSplit_no_delim_w :
    responseSplit (("Relevant EPC: APEDA. No structured part produced.").data)
      = (("Relevant EPC: APEDA. No structured part produced.").data, []) :=
  (responseSplit_no_delim _ (by decide)).trans (by decide)

/-- Claim C10: with two or more delimiter occurrences, the narrative is
the trimmed text before the first occurrence, the structured part is the
trimmed text strictly between the first and second occurrences, and all
text after the second occurrence is excluded from both parts. -/
theorem responseSplit_two_delims (t : List Char) (i j : Nat)
    (h1 : firstIdxOfSub delimChars t = some i)
    (h2 : firstIdxOfSub delimChars (t.drop (i + delimChars.length)) = some j) :
    responseSplit t
      = (trimBoth (t.take i),
         trimBoth ((t.drop (i + delimChars.length)).take j)) := by
  cases t with
  | nil =>
    rw [show firstIdxOfSub delimChars [] = none from by decide] at h1
    exact Option.noConfusion h1
  | cons c cs =>
    unfold responseSplit splitDelim
    rw [show (c :: cs).length + 1 = (cs.length + 1) + 1 from rfl,
        splitOnAux_cons _ _ _ h1, splitOnAux_cons _ _ _ h2]
    rfl

theorem responseSplit_two_delims_w :
    responseSplit (("A___JSON_START___B___JSON_START___C").data)
      = (("A").data, ("B").data) :=
  (responseSplit_two_delims (("A___JSON_START___B___JSON_START___C").data) 1 1
      (by decide) (by decide)).trans (by decide)

theorem arrMatchAt_head (s m : List Char) (h : arrMatchAt s = some m) :
    ∃ t, m = '[' :: t := by
  unfold arrMatchAt at h
  split at h
  · dsimp only at h
    split at h
    · split at h
      · injection h with h'
        exact ⟨_, h'.symm⟩
      · exact absurd h (by simp)
    · exact absurd h (by simp)
  · exact absurd h (by simp)

theorem findArrayMatch_head (s m : List Char) (h : findArrayMatch s = some m) :
    ∃ t, m = '[' :: t := by
  induction s with
  | nil => exact absurd h (by simp [findArrayMatch])
  | cons c cs ih =>
    rw [findArrayMatch] at h
    split at h
    · rename_i m' heq
      injection h with h'
      subst h'
      exact arrMatchAt_head (c :: cs) m' heq
    · exact ih h

theorem parseArrElems_isArr (g : Nat) (t : List Char) (x : JValue × List Char)
    (h : parseArrElems g t = some x) : isArrVal x.1 = true := by
  cases g with
  | zero => exact absurd h (by simp [parseArrElems])
  | succ g =>
    rw [parseArrElems] at h
    split at h
    · injection h with h'
      rw [← h']
      rfl
    · rcases Option.map_eq_some'.mp h with ⟨y, _, hxy⟩
      rw [← hxy]
      rfl

theorem parseVal_bracket (f : Nat) (t : List Char) :
    parseVal (f + 1) ('[' :: t) = parseArrElems f t := by
  rw [parseVal]
  have hdrop : dropJsonWs ('[' :: t) = '[' :: t := by
    simp [dropJsonWs, List.dropWhile_cons, isJsonWs]
  rw [hdrop]
  simp

theorem jsonParse_bracket (t : List Char) (v : JValue)
    (h : jsonParse ('[' :: t) = some v) : isArrVal v = true := by
  unfold jsonParse at h
  rw [show 3 * ('[' :: t).length + 3 = (3 * ('[' :: t).length + 2) + 1 from rfl,
      parseVal_bracket] at h
  split at h
  · rename_i v' rest heq
    split at h
    · injection h with h'
      rw [← h']
      exact parseArrElems_isArr _ _ _ heq
    · exact absurd h (by simp)
  · exact absurd h (by simp)

/-- Claim C1, counterexample: `cexJsonPart` holds a malformed
array-shaped substring (the regex matches, `JSON.parse` fails) and
`cexFullText` holds a well-formed fenced json block parsing to a
non-empty event array, yet extraction returns the empty array — the
fenced-block fallback is not consulted after a failed parse. -/
theorem extract_fallback_after_parse_failure_cex :
    findArrayMatch cexJsonPart = some (("[\x7b,\x7d]").data) ∧
    jsonParse (("[\x7b,\x7d]").data) = none ∧
    jsonParse ((codeBlockContent cexFullText).getD [])
      = some (JValue.arr [JValue.obj
          [((("eventName").data), JValue.str (("Expo").data)),
           ((("date").data), JValue.str (("2026").data)),
           ((("location").data), JValue.str (("Pune").data)),
           ((("type").data), JValue.str (("Exhibition").data))]]) ∧
    extractEvents cexJsonPart cexFullText = JValue.arr [] :=
  ⟨rfl, rfl, rfl, rfl⟩

/-- Claim C1, amended: the fenced-code-block fallback runs only when no
array-shaped substring is found in `jsonPart`; when the regex matches,
the result is determined by parsing the matched substring alone (the
empty array on parse failure), and the full text is never consulted. -/
theorem extract_no_fallback_on_match (jp ft m : List Char)
    (h : findArrayMatch jp = some m) :
    extractEvents jp ft =
      (match jsonParse m with
       | some v => v
       | none => JValue.arr []) := by
  unfold extractEvents
  rw [h]

theorem extract_no_fallback_on_match_w :
    extractEvents cexJsonPart (("```json [\x7b\"a\": 1\x7d] ```").data)
      = JValue.arr [] :=
  (extract_no_fallback_on_match cexJsonPart
      (("```json [\x7b\"a\": 1\x7d] ```").data) (("[\x7b,\x7d]").data) rfl).trans rfl

/-- Claim C2, counterexample: a parsed array element lacking every
required field is returned in `structuredEvents` unchanged — the
extractor enforces no element shape. -/
theorem extract_no_validation_cex :
    extractEvents (("[\x7b\"x\": 1\x7d]").data) [] = JValue.arr [cexBadElem] ∧
    hasEventShape cexBadElem = false :=
  ⟨rfl, rfl⟩

/-- Claim C2, amended: the extractor performs no per-element validation:
whatever value `JSON.parse` yields for the matched substring is returned
verbatim, extra fields retained and required fields unchecked. -/
theorem extract_returns_parse_verbatim (jp ft m : List Char) (v : JValue)
    (h1 : findArrayMatch jp = some m) (h2 : jsonParse m = some v) :
    extractEvents jp ft = v := by
  simp only [extractEvents, h1, h2]

theorem extract_returns_parse_verbatim_w :
    extractEvents (("[\x7b\"eventName\": \"Gem Fair\", \"date\": \"March 2026\", \"location\": \"Mumbai\", \"type\": \"Exhibition\"\x7d]").data) []
      = JValue.arr [goodEventElem] :=
  extract_returns_parse_verbatim _ _
    (("[\x7b\"eventName\": \"Gem Fair\", \"date\": \"March 2026\", \"location\": \"Mumbai\", \"type\": \"Exhibition\"\x7d]").data)
    (JValue.arr [goodEventElem]) rfl rfl

/-- Claim C3, counterexample: with no array-shaped substring in
`jsonPart` and a fenced json block whose content parses to a non-array
JSON value, the extraction result is that value — not a sequence of
event records. -/
theorem extract_nonarray_result_cex :
    extractEvents [] (("```json true ```").data) = JValue.bool true ∧
    isArrVal (extractEvents [] (("```json true ```").data)) = false :=
  ⟨rfl, rfl⟩

/-- Claim C3, amended: extraction is total — every parse failure is
swallowed.  Whenever the array regex matches the result is an array (the
parse of the match, or empty on parse failure); when it does not match
and the fenced block is absent or fails to parse, the result is the
empty array.  Only a fenced block parsing to a non-array value escapes
the sequence shape. -/
theorem extract_total_shape (jp ft : List Char) :
    (∀ m, findArrayMatch jp = some m →
        isArrVal (extractEvents jp ft) = true) ∧
    (∀ m, findArrayMatch jp = some m → jsonParse m = none →
        extractEvents jp ft = JValue.arr []) ∧
    (findArrayMatch jp = none → codeBlockContent ft = none →
        extractEvents jp ft = JValue.arr []) ∧
    (∀ g, findArrayMatch jp = none → codeBlockContent ft = some g →
        jsonParse g = none → extractEvents jp ft = JValue.arr []) := by
  refine ⟨?_, ?_, ?_, ?_⟩
  · intro m h
    simp only [extractEvents, h]
    cases hp : jsonParse m with
    | none => rfl
    | some v =>
      simp only [hp]
      obtain ⟨t', ht⟩ := findArrayMatch_head _ _ h
      subst ht
      exact jsonParse_bracket _ _ hp
  · intro m h hp
    simp only [extractEvents, h, hp]
  · intro h hc
    simp only [extractEvents, h, hc]
  · intro g h hc hp
    simp only [extractEvents, h, hc, hp]
    split
    · rfl
    · rfl

theorem extract_total_shape_w :
    extractEvents (("[\x7b\"a\": 1,\x7d]").data) [] = JValue.arr [] ∧
    extractEvents (("[\x7b\"a\": ").data) (("no block here").data)
      = JValue.arr [] :=
  ⟨(extract_total_shape (("[\x7b\"a\": 1,\x7d]").data) []).2.1 _ rfl rfl,
   (extract_total_shape (("[\x7b\"a\": ").data) (("no block here").data)).2.2.1
      rfl rfl⟩

/-- Claim C4: starting a new search with a non-empty product query clears
the analysis and venue slots (and the search slot) in the synchronous
phase, before the new search outcome is installed; after a successful
settlement only the search slot is repopulated. -/
theorem handleSearch_clears_dependents (s : AppState) (r : SearchResultT)
    (h : s.productQuery.isEmpty = false) :
    (handleSearchStart s).analysisResult = none ∧
    (handleSearchStart s).mapResult = none ∧
    (handleSearchStart s).searchResult = none ∧
    (handleSearch s (.ok r)).analysisResult = none ∧
    (handleSearch s (.ok r)).mapResult = none ∧
    (handleSearch s (.ok r)).searchResult = some r := by
  simp [handleSearch, handleSearchStart, handleSearchSettle, h]

theorem handleSearch_clears_dependents_w :
    (handleSearch sampleState (.ok sampleSearch)).analysisResult = none ∧
    (handleSearch sampleState (.ok sampleSearch)).mapResult = none ∧
    (handleSearch sampleState (.ok sampleSearch)).searchResult
      = some sampleSearch := by
  obtain ⟨-, -, -, h4, h5, h6⟩ :=
    handleSearch_clears_dependents sampleState sampleSearch rfl
  exact ⟨h4, h5, h6⟩

/-- Claim C5, counterexample: after a failed analysis attempt the
analysis slot still holds the previous successful analysis — the slot is
not cleared for the new attempt. -/
theorem handleAnalysis_retains_on_failure_cex :
    sampleState.analysisResult = some sampleAnalysis ∧
    (handleAnalysis sampleState (.error ())).analysisResult
      = some sampleAnalysis ∧
    (handleAnalysis sampleState (.error ())).analysisStatus = .error :=
  ⟨rfl, rfl, rfl⟩

/-- Claim C5, amended: a failed search leaves the search slot cleared and
a failed venue lookup leaves the venue slot cleared (both slots are
nulled before the call), but a failed analysis leaves the analysis slot
exactly as it was — only its status changes. -/
theorem failed_call_slot_state (s : AppState) (en : List Char)
    (h : s.productQuery.isEmpty = false) :
    (handleSearch s (.error ())).searchResult = none ∧
    (handleMapSearch s en (.error ())).mapResult = none ∧
    (handleAnalysis s (.error ())).analysisResult = s.analysisResult := by
  refine ⟨?_, rfl, ?_⟩
  · simp [handleSearch, handleSearchStart, handleSearchSettle, h]
  · cases hs : s.searchResult with
    | none => simp [handleAnalysis, hs]
    | some x =>
      by_cases hu : s.userProfile.isEmpty <;>
        simp [handleAnalysis, hs, hu, handleAnalysisSettle, handleAnalysisStart]

theorem failed_call_slot_state_w :
    (handleSearch sampleState (.error ())).searchResult = none ∧
    (handleMapSearch sampleState (("Gem Fair").data) (.error ())).mapResult
      = none ∧
    (handleAnalysis sampleState (.error ())).analysisResult
      = some sampleAnalysis := by
  obtain ⟨h1, h2, h3⟩ := failed_call_slot_state sampleState (("Gem Fair").data) rfl
  exact ⟨h1, h2, h3.trans rfl⟩

theorem isDigitCh_digitCh (n : Nat) : isDigitCh (digitCh n) = true := by
  rcases n with _|_|_|_|_|_|_|_|_|_|m
  case succ.succ.succ.succ.succ.succ.succ.succ.succ.succ =>
    have h : digitCh (m + 10) = '0' := rfl
    rw [h]
    decide
  all_goals decide

theorem natDigitsAux_digits (fuel : Nat) : ∀ n acc,
    acc.all isDigitCh = true → (natDigitsAux fuel n acc).all isDigitCh = true := by
  induction fuel with
  | zero => intro n acc h; simpa [natDigitsAux] using h
  | succ f ih =>
    intro n acc h
    rw [natDigitsAux]
    split
    · simp [List.all_cons, isDigitCh_digitCh, h]
    · exact ih _ _ (by simp [List.all_cons, isDigitCh_digitCh, h])

theorem natToChars_digits (n : Nat) : (natToChars n).all isDigitCh = true :=
  natDigitsAux_digits (n + 1) n [] rfl

/-- Claim C6, counterexample: for product "Tea & Spices!!" the sanitized
name is "Tea___Spices__" — non-alphanumeric characters are replaced by
underscores, not removed, so the sanitized name does not retain only
alphanumerics. -/
theorem getFileName_sanitize_cex :
    safeName (("Tea & Spices!!").data) = ("Tea___Spices__").data ∧
    (safeName (("Tea & Spices!!").data)).all isAlphaNumCh = false ∧
    getFileName (("Tea & Spices!!").data) 1700000000000 (("pdf").data)
      = ("Kinetick_Trade_Report_Tea___Spices___1700000000000.pdf").data := by
  refine ⟨rfl, by decide, rfl⟩

/-- Claim C6, amended: the file name is the brand prefix, the product
with every non-alphanumeric character replaced by an underscore and then
truncated to 20 characters, an underscore, the decimal timestamp, and the
extension. -/
theorem getFileName_shape (product : List Char) (ts : Nat) (ext : List Char) :
    getFileName product ts ext
      = ("Kinetick_Trade_Report_").data ++ safeName product
          ++ ('_' :: natToChars ts) ++ ('.' :: ext) ∧
    (safeName product).length ≤ 20 ∧
    (safeName product).all (fun c => isAlphaNumCh c || c = '_') = true ∧
    (natToChars ts).all isDigitCh = true := by
  refine ⟨rfl, ?_, ?_, natToChars_digits ts⟩
  · simp [safeName]
  · rw [List.all_eq_true]
    intro c hc
    obtain ⟨d, _, hd⟩ := List.mem_map.mp (List.mem_of_mem_take hc)
    by_cases hAlpha : isAlphaNumCh d = true <;> simp [← hd, hAlpha]

/-- Claim C7, counterexample: a finite pair with zero latitude is not
passed through — the truthiness guard drops the coordinates and the
retrieval configuration carries no bias. -/
theorem findEventLocation_zero_coord_cex :
    (findEventLocationConfig (some 0) (some 10)).latLngBias = none ∧
    (findEventLocationConfig (some 5) (some 0)).latLngBias = none := by
  constructor <;> simp [findEventLocationConfig, buildLatLngBias]

/-- Claim C7, amended: a supplied coordinate pair is passed through to
the retrieval configuration unvalidated whenever both components are
nonzero; a missing coordinate, a zero latitude, or a zero longitude
leaves the configuration without coordinates (the maps tool stays on
either way). -/
theorem findEventLocation_coords_passthrough (la ln : Rat)
    (h1 : la ≠ 0) (h2 : ln ≠ 0) :
    (findEventLocationConfig (some la) (some ln)).latLngBias = some (la, ln) ∧
    (findEventLocationConfig (some la) (some ln)).googleMapsTool = true ∧
    (findEventLocationConfig none (some ln)).latLngBias = none ∧
    (findEventLocationConfig (some la) none).latLngBias = none := by
  refine ⟨?_, rfl, rfl, rfl⟩
  simp [findEventLocationConfig, buildLatLngBias, h1, h2]

theorem findEventLocation_coords_passthrough_w :
    (findEventLocationConfig (some (19 / 2 : Rat)) (some 73)).latLngBias
      = some (19 / 2, 73) :=
  (findEventLocation_coords_passthrough (19 / 2) 73 (by norm_num)
      (by norm_num)).1

/-- Claim C8: the search prompt embeds the strict location filter naming
the supplied location exactly when the location is non-blank after
trimming; otherwise the chosen instruction is the global-search sentence
and the prompt contains it. -/
theorem searchPrompt_location_filter (p : List Char) (loc : Option (List Char))
    (today : List Char) :
    (∀ l, loc = some l → isNonBlankLoc loc = true →
        locationInstruction loc = criticalInstr l ∧
        containsSub (criticalInstr l) (buildSearchPrompt p loc today) = true) ∧
    (isNonBlankLoc loc = false →
        locationInstruction loc = globalInstr ∧
        containsSub globalInstr (buildSearchPrompt p loc today) = true) := by
  constructor
  · rintro l rfl hnb
    simp only [isNonBlankLoc, Bool.and_eq_true, Bool.not_eq_true'] at hnb
    have hli : locationInstruction (some l) = criticalInstr l := by
      simp [locationInstruction, hnb.1, hnb.2]
    refine ⟨hli, ?_⟩
    rw [buildSearchPrompt, hli]
    exact containsSub_append _ _ _
  · intro hnb
    have hli : locationInstruction loc = globalInstr := by
      cases loc with
      | none => rfl
      | some l =>
        simp only [isNonBlankLoc, Bool.and_eq_false_iff, Bool.not_eq_false'] at hnb
        rcases hnb with h1 | h2
        · simp [locationInstruction, h1]
        · by_cases h1 : l.isEmpty = true <;> simp [locationInstruction, h1, h2]
    refine ⟨hli, ?_⟩
    rw [buildSearchPrompt, hli]
    exact containsSub_append _ _ _

theorem searchPrompt_location_filter_w :
    containsSub (criticalInstr (("Dubai").data))
      (buildSearchPrompt (("Leather Bags").data) (some (("Dubai").data))
        (("June 1, 2026").data)) = true ∧
    locationInstruction (some []) = globalInstr ∧
    containsSub globalInstr
      (buildSearchPrompt (("Frozen Shrimp").data) (some [])
        (("June 1, 2026").data)) = true :=
  ⟨((searchPrompt_location_filter (("Leather Bags").data)
        (some (("Dubai").data)) (("June 1, 2026").data)).1
      (("Dubai").data) rfl (by decide)).2,
   ((searchPrompt_location_filter (("Frozen Shrimp").data) (some [])
        (("June 1, 2026").data)).2 (by decide)).1,
   ((searchPrompt_location_filter (("Frozen Shrimp").data) (some [])
        (("June 1, 2026").data)).2 (by decide)).2⟩
